import Mathlib

/-!
Shallow embedding of the survey submission subsystem of the
experience-sampling browser extension (survey-submission source file and the
background event page), together with theorems checking the specification's
claims about it.

Conventions of the embedding:
* JS timestamps (`Date.now()`, `timeToSend`) are `Nat` milliseconds since the
  epoch; the current time is passed explicitly as `now`.
* The IndexedDB object store `PendingSurveyRecords` (keyPath `id`,
  autoIncrement, with a non-unique index on `timeToSend`) is a list of stored
  rows plus the next auto-increment key.
* The network is an oracle `net : XhrRequest → XhrOutcome` giving the outcome
  of the one XMLHttpRequest a submission attempt issues.
* A JS `Date` value is modelled by the character sequence of its
  `toISOString()` rendering, since that is the only use the code makes of it.
* Exceptions thrown by the JS code are modelled with `Except JsError`.
-/

namespace SurveySubmission

/-- Submission settings of the source file. -/
def SERVER_URL : String := "https://chrome-experience-sampling.appspot.com"

/-- Path of the submit-survey endpoint. -/
def SUBMIT_SURVEY_ACTION : String := "/_ah/api/cesp/v1/submitsurvey"

/-- XHR timeout in milliseconds. -/
def XHR_TIMEOUT : Nat := 4000

/-- Name of the recurring alarm that triggers queue processing. -/
def QUEUE_ALARM_NAME : String := "surveySubmissionAlarm"

/-- A question and response (SurveySubmission.Response). -/
structure Response where
  question : String
  answer : String
deriving Repr, DecidableEq

/-- A completed survey (SurveySubmission.SurveyRecord). `dateTaken` is the JS
Date modelled by the characters of its toISOString() rendering. -/
structure SurveyRecord where
  type : String
  participantId : String
  dateTaken : List Char
  responses : List Response
deriving Repr, DecidableEq

/-- A completed survey pending submission (SurveySubmission.PendingSurveyRecord)
as constructed by saveSurveyRecord, before the store assigns a key. -/
structure PendingSurveyRecord where
  surveyRecord : SurveyRecord
  timeToSend : Nat
  tries : Nat
deriving Repr, DecidableEq

/-- A row of the PendingSurveyRecords object store: the store has keyPath
`id` with autoIncrement, so adding a PendingSurveyRecord writes the assigned
key into an `id` field of the stored value. -/
structure StoredRecord where
  id : Nat
  surveyRecord : SurveyRecord
  timeToSend : Nat
  tries : Nat
deriving Repr, DecidableEq

/-- The PendingSurveyRecords object store: its rows and the next
auto-increment key. -/
structure ObjectStore where
  records : List StoredRecord
  nextId : Nat
deriving Repr, DecidableEq

/-- Compute the sending delay, in ms (SurveySubmission.calculateSendingDelay):
(Math.pow(2, tries) - 1) * 60000. -/
def calculateSendingDelay (tries : Nat) : Nat :=
  (2 ^ tries - 1) * 60000

/-- store.add(pendingSurveyRecord): the store assigns the fresh
auto-increment key and persists the row. -/
def ObjectStore.add (st : ObjectStore) (p : PendingSurveyRecord) : ObjectStore :=
  { records := st.records ++
      [{ id := st.nextId, surveyRecord := p.surveyRecord,
         timeToSend := p.timeToSend, tries := p.tries }],
    nextId := st.nextId + 1 }

/-- SurveySubmission.saveSurveyRecord: `tries = tries || 0` (an omitted
argument reads as undefined and defaults to 0), then a PendingSurveyRecord
with timeToSend = Date.now() + calculateSendingDelay(tries) is added to the
store. -/
def saveSurveyRecord (surveyRecord : SurveyRecord) (tries? : Option Nat)
    (now : Nat) (st : ObjectStore) : ObjectStore :=
  let tries := tries?.getD 0
  let timeToSend := now + calculateSendingDelay tries
  let pendingSurveyRecord : PendingSurveyRecord :=
    { surveyRecord := surveyRecord, timeToSend := timeToSend, tries := tries }
  st.add pendingSurveyRecord

/-- Ordering of rows by the `timeToSend` index key. -/
def byTimeToSend (a b : StoredRecord) : Prop :=
  a.timeToSend ≤ b.timeToSend

instance : DecidableRel byTimeToSend :=
  fun a b => Nat.decLe a.timeToSend b.timeToSend

instance : IsTotal StoredRecord byTimeToSend :=
  ⟨fun a b => Nat.le_total a.timeToSend b.timeToSend⟩

instance : IsTrans StoredRecord byTimeToSend :=
  ⟨fun _ _ _ hab hbc => Nat.le_trans hab hbc⟩

/-- Enumeration of the store through its `timeToSend` index: an IndexedDB
cursor over a non-unique index visits the rows in ascending index-key order. -/
def indexScan (st : ObjectStore) : List StoredRecord :=
  List.insertionSort byTimeToSend st.records

/-- The cursor scan of processQueue: the `timeToSend` index restricted by
IDBKeyRange.upperBound(Date.now()), i.e. the rows with timeToSend ≤ now in
ascending timeToSend order. -/
def listDue (now : Nat) (st : ObjectStore) : List StoredRecord :=
  (indexScan st).filter (fun r => r.timeToSend ≤ now)

/-- SurveySubmission.deleteSurveyRecord: store.delete(id). Deleting an
absent key succeeds and changes nothing. -/
def deleteSurveyRecord (id : Nat) (st : ObjectStore) : ObjectStore :=
  { st with records := st.records.filter (fun e => e.id ≠ id) }

/-- Exceptions the modelled JS code can throw. -/
inductive JsError where
  | typeError
  | referenceError
deriving Repr, DecidableEq

/-- SurveySubmission.updateTimeToSend: store.get(id), then on the result
record set record.tries = record.tries + 1 and record.timeToSend =
Date.now() + calculateSendingDelay(record.tries), and store.put(record).
When the key is absent, IndexedDB's get succeeds with result undefined, and
the handler's read of record.tries throws a TypeError: no write happens and
the promise never settles. -/
def updateTimeToSend (id : Nat) (now : Nat) (st : ObjectStore) :
    Except JsError ObjectStore :=
  match st.records.find? (fun e => e.id == id) with
  | none => Except.error JsError.typeError
  | some record =>
    let updatedTries := record.tries + 1
    let updated : StoredRecord :=
      { record with tries := updatedTries,
                    timeToSend := now + calculateSendingDelay updatedTries }
    Except.ok { st with
      records := st.records.map (fun e => if e.id == id then updated else e) }

/-- JS string slicing of the ISO date in sendSurveyRecord:
dateTaken.slice(-1) === 'Z' tests the last character and
dateTaken.slice(0, -1) drops it. -/
def stripTrailingZ (s : List Char) : List Char :=
  if s.drop (s.length - 1) = ['Z'] then s.take (s.length - 1) else s

/-- The `data` document sendSurveyRecord serializes: date_taken with the
trailing timezone designator stripped, participant_id, responses (pushed one
by one, in order), survey_type. -/
structure SubmissionBody where
  date_taken : List Char
  participant_id : String
  responses : List Response
  survey_type : String
deriving Repr, DecidableEq

/-- The body built by sendSurveyRecord from a SurveyRecord: the responses
field starts as [] and the loop pushes each response in order. -/
def buildSubmissionBody (surveyRecord : SurveyRecord) : SubmissionBody :=
  { date_taken := stripTrailingZ surveyRecord.dateTaken
    participant_id := surveyRecord.participantId
    responses := surveyRecord.responses.foldl (fun acc r => acc ++ [r]) []
    survey_type := surveyRecord.type }

/-- The single request a submission attempt issues:
xhr.open(method, url, true) with the serialized data. -/
structure XhrRequest where
  method : String
  url : String
  body : SubmissionBody
deriving Repr, DecidableEq

/-- The request sendSurveyRecord opens: method POST, to
SERVER_URL + SUBMIT_SURVEY_ACTION, carrying the serialized body. -/
def buildXhrRequest (surveyRecord : SurveyRecord) : XhrRequest :=
  { method := "POST", url := SERVER_URL ++ SUBMIT_SURVEY_ACTION,
    body := buildSubmissionBody surveyRecord }

/-- How one XMLHttpRequest ends: the load event (with the final HTTP status
and response text), a network error, or a timeout. In the error and timeout
cases xhr.status is whatever the aborted request reports (0 in practice);
the handlers reject with it either way. -/
inductive XhrOutcome where
  | loaded (status : Nat) (responseText : String)
  | netError (status : Nat)
  | timedOut (status : Nat)
deriving Repr, DecidableEq

/-- The handler dispatch of sendSurveyRecord: onload resolves with the
response text only when xhr.status === 204 and otherwise rejects with the
status; onerror and ontimeout reject with the status. -/
def dispatchXhr (outcome : XhrOutcome) : Except Nat String :=
  match outcome with
  | XhrOutcome.loaded status responseText =>
      if status = 204 then Except.ok responseText else Except.error status
  | XhrOutcome.netError status => Except.error status
  | XhrOutcome.timedOut status => Except.error status

/-- SurveySubmission.sendSurveyRecord applied to an actual SurveyRecord: it
builds the request and settles according to the XHR outcome the network
oracle assigns to it. -/
def sendSurveyRecord (net : XhrRequest → XhrOutcome)
    (surveyRecord : SurveyRecord) : Except Nat String :=
  dispatchXhr (net (buildXhrRequest surveyRecord))

/-- The element processQueue pushes onto surveysToSubmit for each due row:
the pair of the row's id and its embedded surveyRecord. -/
structure QueueItem where
  id : Nat
  surveyRecord : SurveyRecord
deriving Repr, DecidableEq

/-- The promise produced when processQueue maps sendSurveyRecord directly
over surveysToSubmit: sendSurveyRecord receives the whole {id, surveyRecord}
wrapper as its surveyRecord parameter. The wrapper has no dateTaken property,
so surveyRecord.dateTaken reads as undefined and
surveyRecord.dateTaken.toISOString() throws a TypeError inside the promise
executor: the attempt is rejected before any request is issued, whatever the
network would have answered. -/
def sendOnWrapper (_net : XhrRequest → XhrOutcome) (_item : QueueItem) :
    Except JsError (Except Nat String) :=
  Except.error JsError.typeError

/-- The reconciliation processQueue attaches to one attempt's promise. Both
continuations, success (SurveySubmission.deleteSurveyRecord(id)) and failure
(SurveySubmission.updateTimeToSend(id)), evaluate the identifier `id`, which
is bound nowhere in processQueue: each throws a ReferenceError before any
store operation runs, so the store is not touched. -/
def reconcileOutcome (st : ObjectStore)
    (_outcome : Except JsError (Except Nat String)) :
    ObjectStore × Except JsError Unit :=
  (st, Except.error JsError.referenceError)

/-- SurveySubmission.processQueue: scan the timeToSend index up to
Date.now() collecting {id, surveyRecord} wrappers, map the wrappers through
sendSurveyRecord, and attach the delete/update continuations to each attempt.
Returns the store as the invocation leaves it together with each row's
reconciliation result. -/
def processQueue (net : XhrRequest → XhrOutcome) (now : Nat)
    (st : ObjectStore) : ObjectStore × List (Except JsError Unit) :=
  let surveysToSubmit :=
    (listDue now st).map (fun e => QueueItem.mk e.id e.surveyRecord)
  let outcomes := surveysToSubmit.map (fun item => sendOnWrapper net item)
  outcomes.foldl
    (fun acc outcome =>
      let step := reconcileOutcome acc.1 outcome
      (step.1, acc.2 ++ [step.2]))
    (st, [])

/-- A chrome.alarms alarm event, carrying its name. -/
structure Alarm where
  name : String
deriving Repr, DecidableEq

/-- SurveySubmission.processQueueAlarm: return without acting unless the
alarm is the queue alarm. On the queue alarm the handler's call expression
is the bare identifier processQueue, which is bound nowhere (the function
exists only as SurveySubmission.processQueue on the namespace object), so
evaluating it throws a ReferenceError before the queue processor can run:
the store is untouched in both branches. -/
def processQueueAlarm (alarm : Alarm) (st : ObjectStore) :
    ObjectStore × Except JsError Unit :=
  if alarm.name ≠ QUEUE_ALARM_NAME then (st, Except.ok ())
  else (st, Except.error JsError.referenceError)

/-- Concrete response used as a witness input (mirrors the test fixture). -/
def demoResponse : Response := { question := "q1", answer := "a1" }

/-- Concrete completed survey used as a witness input. -/
def demoSurveyRecord : SurveyRecord :=
  { type := "testType", participantId := "0",
    dateTaken := "2015-03-24T10:00:00.000Z".data,
    responses := [demoResponse] }

/-- Concrete stored row used as a witness input. -/
def demoStored : StoredRecord :=
  { id := 1, surveyRecord := demoSurveyRecord, timeToSend := 0, tries := 0 }

/-- Concrete store holding one due row, used as a witness input. -/
def demoStore : ObjectStore := { records := [demoStored], nextId := 2 }

/-- The delay is positive after at least one attempt. -/
theorem calculateSendingDelay_succ_pos (tries : Nat) :
    0 < calculateSendingDelay (tries + 1) := by
  show 0 < (2 ^ (tries + 1) - 1) * 60000
  have h2 : 2 ≤ 2 ^ (tries + 1) := by
    calc 2 = 2 ^ 1 := rfl
    _ ≤ 2 ^ (tries + 1) := Nat.pow_le_pow_right (by norm_num) (by omega)
  calc 0 < 1 * 60000 := by norm_num
  _ ≤ (2 ^ (tries + 1) - 1) * 60000 := Nat.mul_le_mul_right _ (by omega)

/-- Pushing the elements of rs one by one onto acc appends rs to acc. -/
theorem foldl_push_eq_append (rs acc : List Response) :
    rs.foldl (fun a x => a ++ [x]) acc = acc ++ rs := by
  induction rs generalizing acc with
  | nil => simp
  | cons r rs ih => simp [List.foldl_cons, ih]

/-- Stripping the trailing designator of a date that ends in Z drops it. -/
theorem stripTrailingZ_append_Z (t : List Char) :
    stripTrailingZ (t ++ ['Z']) = t := by
  unfold stripTrailingZ
  rw [show (t ++ ['Z']).length - 1 = t.length by simp,
    List.drop_left, if_pos rfl, List.take_left]

/-- Stripping leaves a date that does not end in Z unchanged. -/
theorem stripTrailingZ_no_Z (s : List Char) (hne : ∀ t, s ≠ t ++ ['Z']) :
    stripTrailingZ s = s := by
  unfold stripTrailingZ
  rw [if_neg]
  intro h
  refine hne (s.take (s.length - 1)) ?_
  conv_lhs => rw [← List.take_append_drop (s.length - 1) s]
  rw [h]

/-- C2: calculateSendingDelay(tries) equals (2^tries − 1) × 60000
milliseconds for every non-negative tries; in particular it is 0 at
tries = 0 and 900000 at tries = 4, and it is strictly increasing. -/
theorem calculateSendingDelay_formula_and_monotone :
    calculateSendingDelay 0 = 0 ∧ calculateSendingDelay 4 = 900000
      ∧ StrictMono calculateSendingDelay
      ∧ ∀ tries : Nat, calculateSendingDelay tries = (2 ^ tries - 1) * 60000 := by
  refine ⟨rfl, rfl, strictMono_nat_of_lt_succ fun n => ?_, fun _ => rfl⟩
  have h2 : 2 ^ n < 2 ^ (n + 1) := Nat.pow_lt_pow_succ (by norm_num)
  have h1 : 1 ≤ 2 ^ n := Nat.one_le_two_pow
  exact mul_lt_mul_of_pos_right (Nat.sub_lt_sub_right h1 h2) (by norm_num)

/-- C6: the records the queue processor selects for delivery are exactly
those with timeToSend ≤ now, enumerated in ascending timeToSend order, and
never one with timeToSend > now. -/
theorem listDue_exactly_due_ascending (now : Nat) (st : ObjectStore) :
    (∀ r, r ∈ listDue now st ↔ r ∈ st.records ∧ r.timeToSend ≤ now)
      ∧ (listDue now st).Sorted byTimeToSend
      ∧ ∀ r ∈ listDue now st, ¬ now < r.timeToSend := by
  refine ⟨fun r => ?_, ?_, fun r hr => ?_⟩
  · simp [listDue, indexScan, List.mem_filter, List.mem_insertionSort]
  · exact List.Pairwise.filter _ (List.sorted_insertionSort byTimeToSend st.records)
  · simp only [listDue] at hr
    have h := (List.mem_filter.mp hr).2
    simp only [decide_eq_true_eq] at h
    exact Nat.not_lt.mpr h

/-- C4: a submission attempt resolves exactly when the HTTP status is 204;
any other status on load, a network error, or a timeout rejects the attempt
with the status as diagnostic. -/
theorem sendSurveyRecord_ok_iff_status204 (net : XhrRequest → XhrOutcome)
    (surveyRecord : SurveyRecord) :
    ((∃ responseText, sendSurveyRecord net surveyRecord = Except.ok responseText)
        ↔ ∃ responseText,
            net (buildXhrRequest surveyRecord) = XhrOutcome.loaded 204 responseText)
      ∧ (∀ status responseText,
          net (buildXhrRequest surveyRecord) = XhrOutcome.loaded status responseText →
            status ≠ 204 → sendSurveyRecord net surveyRecord = Except.error status)
      ∧ (∀ status, net (buildXhrRequest surveyRecord) = XhrOutcome.netError status →
          sendSurveyRecord net surveyRecord = Except.error status)
      ∧ (∀ status, net (buildXhrRequest surveyRecord) = XhrOutcome.timedOut status →
          sendSurveyRecord net surveyRecord = Except.error status) := by
  refine ⟨?_, ?_, ?_, ?_⟩
  · cases h : net (buildXhrRequest surveyRecord) with
    | loaded status responseText =>
      by_cases h204 : status = 204
      · subst h204
        simp [sendSurveyRecord, dispatchXhr, h]
      · simp [sendSurveyRecord, dispatchXhr, h, h204]
    | netError status => simp [sendSurveyRecord, dispatchXhr, h]
    | timedOut status => simp [sendSurveyRecord, dispatchXhr, h]
  · intro status responseText h hne
    simp [sendSurveyRecord, dispatchXhr, h, hne]
  · intro status h
    simp [sendSurveyRecord, dispatchXhr, h]
  · intro status h
    simp [sendSurveyRecord, dispatchXhr, h]

/-- C9 evidence: an alarm of another name (here the surrounding
application's uninstall alarm) is filtered out and leaves the store
unchanged, but the queue alarm itself also leaves the store unchanged and
faults with a ReferenceError on the unbound identifier processQueue, so the
queue processor is never invoked. -/
theorem processQueueAlarm_matching_name_throws_cex :
    processQueueAlarm { name := "uninstallAlarm" } demoStore
        = (demoStore, Except.ok ())
      ∧ processQueueAlarm { name := QUEUE_ALARM_NAME } demoStore
        = (demoStore, Except.error JsError.referenceError) :=
  ⟨rfl, rfl⟩

/-- C3: saveSurveyRecord persists exactly one new pending row holding the
record, with timeToSend = now + calculateSendingDelay(tries), under the
store-assigned key nextId, which is fresh for the stored rows; with tries
omitted the row is persisted with tries = 0 and timeToSend = now. -/
theorem saveSurveyRecord_persists_one_fresh (surveyRecord : SurveyRecord)
    (tries? : Option Nat) (now : Nat) (st : ObjectStore)
    (hfresh : ∀ e ∈ st.records, e.id < st.nextId) :
    (saveSurveyRecord surveyRecord tries? now st).records
        = st.records ++
          [{ id := st.nextId, surveyRecord := surveyRecord,
             timeToSend := now + calculateSendingDelay (tries?.getD 0),
             tries := tries?.getD 0 }]
      ∧ (∀ e ∈ st.records, e.id ≠ st.nextId)
      ∧ (saveSurveyRecord surveyRecord tries? now st).nextId = st.nextId + 1
      ∧ (saveSurveyRecord surveyRecord none now st).records
          = st.records ++
            [{ id := st.nextId, surveyRecord := surveyRecord,
               timeToSend := now, tries := 0 }] := by
  refine ⟨rfl, fun e he => Nat.ne_of_lt (hfresh e he), rfl, ?_⟩
  show st.records ++ [_] = st.records ++ [_]
  norm_num [calculateSendingDelay]

/-- C3 witness: the concrete record saved at tries = 2, now = 100, over the
one-row demo store. -/
theorem saveSurveyRecord_persists_one_fresh_witness :
    (saveSurveyRecord demoSurveyRecord (some 2) 100 demoStore).records
        = demoStore.records ++
          [{ id := demoStore.nextId, surveyRecord := demoSurveyRecord,
             timeToSend := 100 + calculateSendingDelay ((some 2).getD 0),
             tries := (some 2).getD 0 }]
      ∧ (∀ e ∈ demoStore.records, e.id ≠ demoStore.nextId)
      ∧ (saveSurveyRecord demoSurveyRecord (some 2) 100 demoStore).nextId
          = demoStore.nextId + 1
      ∧ (saveSurveyRecord demoSurveyRecord none 100 demoStore).records
          = demoStore.records ++
            [{ id := demoStore.nextId, surveyRecord := demoSurveyRecord,
               timeToSend := 100, tries := 0 }] :=
  saveSurveyRecord_persists_one_fresh demoSurveyRecord (some 2) 100 demoStore
    (by decide)

/-- C5: for a stored row found under the targeted id with tries t and
timeToSend s ≤ now, updateTimeToSend writes back the row with tries = t + 1
and timeToSend = now + calculateSendingDelay(t + 1); that time is at least s
and strictly after the failed attempt at now. -/
theorem updateTimeToSend_increments_and_reschedules (id now : Nat)
    (st : ObjectStore) (r : StoredRecord)
    (hfind : st.records.find? (fun e => e.id == id) = some r)
    (hdue : r.timeToSend ≤ now) :
    updateTimeToSend id now st
        = Except.ok { st with records := st.records.map (fun e =>
            if e.id == id then
              { r with tries := r.tries + 1,
                       timeToSend := now + calculateSendingDelay (r.tries + 1) }
            else e) }
      ∧ r.timeToSend ≤ now + calculateSendingDelay (r.tries + 1)
      ∧ now < now + calculateSendingDelay (r.tries + 1) := by
  refine ⟨?_, Nat.le_trans hdue (Nat.le_add_right now _),
    Nat.lt_add_of_pos_right (calculateSendingDelay_succ_pos r.tries)⟩
  simp [updateTimeToSend, hfind]

/-- C5 witness: the demo store's one due row rescheduled at now = 1000. -/
theorem updateTimeToSend_increments_and_reschedules_witness :
    updateTimeToSend 1 1000 demoStore
        = Except.ok { demoStore with records := demoStore.records.map (fun e =>
            if e.id == 1 then
              { demoStored with
                tries := demoStored.tries + 1,
                timeToSend := 1000 + calculateSendingDelay (demoStored.tries + 1) }
            else e) }
      ∧ demoStored.timeToSend ≤ 1000 + calculateSendingDelay (demoStored.tries + 1)
      ∧ 1000 < 1000 + calculateSendingDelay (demoStored.tries + 1) :=
  updateTimeToSend_increments_and_reschedules 1 1000 demoStore demoStored
    (by rfl) (by decide)

/-- C8 counterexample: over the empty store, a reschedule targeting id 1
does not resolve as a benign no-op with the store unchanged; it faults with
a TypeError, because store.get of an absent key succeeds with result
undefined and the handler reads record.tries off undefined. -/
theorem updateTimeToSend_missing_id_cex :
    updateTimeToSend 1 100 { records := [], nextId := 1 }
        = Except.error JsError.typeError
      ∧ updateTimeToSend 1 100 { records := [], nextId := 1 }
        ≠ Except.ok { records := [], nextId := 1 } :=
  ⟨rfl, fun h => Except.noConfusion h⟩

/-- C8 amended: a reschedule targeting an id not present in the store
performs no write, so the store is untouched, but instead of a benign
RecordNotFound no-op the handler faults with a TypeError reading the
missing record. -/
theorem updateTimeToSend_missing_id_faults (id now : Nat) (st : ObjectStore)
    (habsent : ∀ e ∈ st.records, e.id ≠ id) :
    updateTimeToSend id now st = Except.error JsError.typeError := by
  have hfind : st.records.find? (fun e => e.id == id) = none :=
    List.find?_eq_none.mpr (fun e he => by simpa using habsent e he)
  simp [updateTimeToSend, hfind]

/-- C8 witness: id 7 is absent from the demo store. -/
theorem updateTimeToSend_missing_id_faults_witness :
    updateTimeToSend 7 100 demoStore = Except.error JsError.typeError :=
  updateTimeToSend_missing_id_faults 7 100 demoStore (by decide)

/-- C10: over a store with pairwise-distinct ids in which the targeted id is
present, updateTimeToSend rewrites only the targeted row's tries and
timeToSend fields, leaving its id and embedded surveyRecord and every other
row unchanged. -/
theorem updateTimeToSend_frame (id now : Nat) (st : ObjectStore)
    (hnodup : (st.records.map StoredRecord.id).Nodup)
    (hmem : ∃ r ∈ st.records, r.id = id) :
    ∃ st', updateTimeToSend id now st = Except.ok st'
      ∧ st'.nextId = st.nextId
      ∧ st'.records = st.records.map (fun e =>
          if e.id = id then
            { e with tries := e.tries + 1,
                     timeToSend := now + calculateSendingDelay (e.tries + 1) }
          else e) := by
  obtain ⟨r0, hr0, hr0id⟩ := hmem
  cases hfind : st.records.find? (fun e => e.id == id) with
  | none =>
    exact absurd (List.find?_eq_none.mp hfind r0 hr0) (by simp [hr0id])
  | some r =>
    have hrmem : r ∈ st.records := List.mem_of_find?_eq_some hfind
    have hrid : r.id = id := by simpa using List.find?_some hfind
    refine ⟨{ st with records := st.records.map (fun e =>
        if e.id == id then
          { r with tries := r.tries + 1,
                   timeToSend := now + calculateSendingDelay (r.tries + 1) }
        else e) },
      by simp [updateTimeToSend, hfind], rfl, ?_⟩
    apply List.map_congr_left
    intro a ha
    by_cases hid : a.id = id
    · have ha_r : a = r :=
        List.inj_on_of_nodup_map hnodup ha hrmem (by rw [hid, hrid])
      subst ha_r
      simp [hid]
    · simp [hid]

/-- C10 witness: the frame property at the demo store, id 1, now = 500. -/
theorem updateTimeToSend_frame_witness :
    ∃ st', updateTimeToSend 1 500 demoStore = Except.ok st'
      ∧ st'.nextId = demoStore.nextId
      ∧ st'.records = demoStore.records.map (fun e =>
          if e.id = 1 then
            { e with tries := e.tries + 1,
                     timeToSend := 500 + calculateSendingDelay (e.tries + 1) }
          else e) :=
  updateTimeToSend_frame 1 500 demoStore (by decide) ⟨demoStored, by decide, rfl⟩

/-- C7: the request a submission attempt issues is a POST to the
submit-survey endpoint whose body holds date_taken as the record's ISO date
with a trailing Z stripped exactly when present, participant_id and
survey_type copied from the record, and the record's responses in their
original order. -/
theorem buildXhrRequest_wire_format (surveyRecord : SurveyRecord) :
    (buildXhrRequest surveyRecord).method = "POST"
      ∧ (buildXhrRequest surveyRecord).url = SERVER_URL ++ SUBMIT_SURVEY_ACTION
      ∧ (buildXhrRequest surveyRecord).body.participant_id
          = surveyRecord.participantId
      ∧ (buildXhrRequest surveyRecord).body.survey_type = surveyRecord.type
      ∧ (buildXhrRequest surveyRecord).body.responses = surveyRecord.responses
      ∧ (∀ t, surveyRecord.dateTaken = t ++ ['Z'] →
          (buildXhrRequest surveyRecord).body.date_taken = t)
      ∧ ((∀ t, surveyRecord.dateTaken ≠ t ++ ['Z']) →
          (buildXhrRequest surveyRecord).body.date_taken
            = surveyRecord.dateTaken) := by
  refine ⟨rfl, rfl, rfl, rfl, ?_, ?_, ?_⟩
  · show surveyRecord.responses.foldl (fun a x => a ++ [x]) [] = _
    rw [foldl_push_eq_append, List.nil_append]
  · intro t ht
    show stripTrailingZ surveyRecord.dateTaken = t
    rw [ht, stripTrailingZ_append_Z]
  · intro hne
    exact stripTrailingZ_no_Z surveyRecord.dateTaken hne

/-- C1 evidence: a store with one due record, processed while the server
answers 204 to everything, is left unchanged with the record still present
and the single reconciliation faulted: the queued {id, surveyRecord} wrapper
makes the attempt throw inside sendSurveyRecord, and the delete/update
continuations throw a ReferenceError on the unbound identifier id, so no
delete or reschedule ever runs. -/
theorem processQueue_reconciles_nothing_cex :
    (processQueue (fun _ => XhrOutcome.loaded 204 "") 1000 demoStore).1 = demoStore
      ∧ demoStore.records.length = 1
      ∧ (listDue 1000 demoStore).length = 1
      ∧ (processQueue (fun _ => XhrOutcome.loaded 204 "") 1000 demoStore).2
          = [Except.error JsError.referenceError] :=
  ⟨rfl, rfl, rfl, rfl⟩

end SurveySubmission
